import Mathlib

/-!
Shallow embedding of `scripts/debug-server.py` (claude-threads debug
dashboard server) and proofs about its read path: location resolution,
database/log read helpers, and the HTTP GET router with its JSON handlers.

Conventions of the embedding:
* The filesystem is a function `String → Option (List String)` mapping a
  path (relative to the resolved data directory) to the file's lines as
  returned by Python `readlines()` (`none` = the file cannot be opened).
* The SQLite store `threads.db` is `Option Store` (`none` = the database
  file does not exist, matching `get_db` returning `None`).
* Executing a fixed SQL statement is modelled by a Lean function on
  `Store`; a query that can fail at runtime is `Store → Except String α`,
  the `.error` case standing for a raised `sqlite3` exception.
* Python `int(...)` applied to a string, and Python list slicing
  `xs[-n:]`, are modelled faithfully including their edge cases
  (truthiness of strings, `-0 = 0`, negative indices, `_` digit
  separators).
-/

/-- Characters Python `str.strip()` and `int()` treat as whitespace. -/
def pyIsSpace (c : Char) : Bool :=
  c = ' ' || c = '\t' || c = '\n' || c = '\x0d' || c = '\x0b' || c = '\x0c'

/-- Python `str.strip()` on a character list: drop whitespace at both ends. -/
def pyStripList (cs : List Char) : List Char :=
  ((cs.dropWhile pyIsSpace).reverse.dropWhile pyIsSpace).reverse

/-- Python `str.strip()`. -/
def pyStrip (s : String) : String :=
  String.mk (pyStripList s.data)

/-- Accumulate a decimal digit string, allowing single `_` separators
between digits as Python 3 `int()` does. `none` on a malformed tail. -/
def pyDigitsVal (acc : Nat) : List Char → Option Nat
  | [] => some acc
  | '_' :: c :: cs =>
      if c.isDigit then pyDigitsVal (acc * 10 + (c.toNat - 48)) cs else none
  | c :: cs =>
      if c.isDigit then pyDigitsVal (acc * 10 + (c.toNat - 48)) cs else none

/-- A nonempty digit string (first char must be a digit, no leading `_`). -/
def pyDigitsStart : List Char → Option Nat
  | c :: cs => if c.isDigit then pyDigitsVal (c.toNat - 48) cs else none
  | [] => none

/-- Python `int(s)` on a decimal string: strips whitespace, takes an
optional sign, then a digit string; `none` models a raised `ValueError`. -/
def pyInt (s : String) : Option Int :=
  match pyStripList s.data with
  | '+' :: rest => (pyDigitsStart rest).map (fun n => (n : Int))
  | '-' :: rest => (pyDigitsStart rest).map (fun n => -(n : Int))
  | rest => (pyDigitsStart rest).map (fun n => (n : Int))

/-- Whether the first character list has the second as a prefix. -/
def listHasPrefix : List Char → List Char → Bool
  | _, [] => true
  | [], _ :: _ => false
  | c :: cs, p :: ps => c = p && listHasPrefix cs ps

/-- Python `s.startswith(pre)`. -/
def pyStartsWith (s pre : String) : Bool :=
  listHasPrefix s.data pre.data

/-- Python `s.endswith(suf)`. -/
def pyEndsWith (s suf : String) : Bool :=
  listHasPrefix s.data.reverse suf.data.reverse

/-- Replace the leftmost, non-overlapping occurrences of a nonempty
pattern, structurally recursive on a fuel bound (each step consumes at
least one character, so `fuel = length` suffices). -/
def pyReplaceAux (pat repl : List Char) : Nat → List Char → List Char
  | _, [] => []
  | 0, cs => cs
  | fuel + 1, c :: cs =>
    if listHasPrefix (c :: cs) pat then
      repl ++ pyReplaceAux pat repl fuel (List.drop (pat.length - 1) cs)
    else
      c :: pyReplaceAux pat repl fuel cs

/-- Python `s.replace(pat, repl)`: all non-overlapping occurrences, left
to right; an empty pattern inserts `repl` at every character boundary. -/
def pyReplace (s pat repl : String) : String :=
  match pat.data with
  | [] => String.mk (repl.data ++ (s.data.map (fun c => c :: repl.data)).flatten)
  | _ :: _ => String.mk (pyReplaceAux pat.data repl.data s.data.length s.data)

/-- Python truthiness of `os.environ.get(...)`: `None` and the empty
string are falsy, every other string is truthy. -/
def pyTruthyStr : Option String → Bool
  | none => false
  | some s => s ≠ ""

/-- Start index selected by a Python slice `xs[start:]` of a list of
length `len` (negative indices count from the end and clamp at 0;
non-negative indices clamp at `len`). -/
def pySliceStart (len : Nat) (start : Int) : Nat :=
  if start < 0 then ((len : Int) + start).toNat
  else min start.toNat len

/-- Python `xs[-n:]` for an arbitrary integer `n` (this is the slice taken
by `read_log_file`): for `n > 0` the last `n` elements, for `n = 0` the
whole list (since `-0 = 0`), for `n < 0` the list without its first `-n`
elements. -/
def pyTailSlice (xs : List α) (n : Int) : List α :=
  xs.drop (pySliceStart xs.length (-n))

/--
`find_data_dir` from the source, as a pure function of the environment
variable `CT_DATA_DIR` (`none` = unset), the existence of
`./.claude-threads` and `~/.claude-threads`, and the home directory path.
The Python code tests `os.environ.get('CT_DATA_DIR')` for truthiness, so
an override set to the empty string is skipped.
-/
def find_data_dir (env : Option String) (localExists homeExists : Bool)
    (homeDir : String) : String :=
  if pyTruthyStr env then env.getD ""
  else if localExists then ".claude-threads"
  else if homeExists then homeDir ++ "/.claude-threads"
  else ".claude-threads"

/--
`read_log_file(path, lines)` from the source. The file is given as its
`readlines()` result (`none` when `open` raises). The Python code returns
`''.join(all_lines[-lines:])`; we return the kept lines themselves, whose
concatenation is that text, and `[]` (empty text) when the file is
unreadable.
-/
def read_log_file (file : Option (List String)) (lines : Int) : List String :=
  match file with
  | none => []
  | some all_lines => pyTailSlice all_lines lines

/--
`is_pid_running(pid_file)` from the source. The PID file's content is
`none` when the file cannot be read; `alive pid` models `os.kill(pid, 0)`
succeeding (process exists and is probeable). The bare `except` makes
every failure return `false`.
-/
def is_pid_running (content : Option String) (alive : Int → Bool) : Bool :=
  match content with
  | none => false
  | some s =>
    match pyInt (pyStrip s) with
    | none => false
    | some pid => alive pid

/-- A row of the `threads` table (columns as in the `api_threads` SELECT). -/
structure Thread where
  id : String
  name : String
  mode : String
  status : String
  phase : String
  template : String
  session_id : String
  worktree : String
  context : String
  created_at : String
  updated_at : String
deriving Repr, DecidableEq

/-- A row of the `events` table. -/
structure Event where
  id : Int
  type : String
  source : String
  target : String
  data : String
  processed : Int
  timestamp : String
deriving Repr, DecidableEq

/-- A row of the `worktrees` table. -/
structure Worktree where
  id : Int
  thread_id : String
  path : String
  branch : String
  base_branch : String
  status : String
  created_at : String
deriving Repr, DecidableEq

/-- The monitored SQLite store `threads.db`. -/
structure Store where
  threads : List Thread
  events : List Event
  worktrees : List Worktree
deriving Repr, DecidableEq

/-- `get_db()` returns `None` when the database file does not exist; the
store is therefore presented to the query helpers as `Option Store`. -/
def threadRows : Option Store → List Thread
  | none => []
  | some s => s.threads

/-- Event rows visible through an optional store. -/
def eventRows : Option Store → List Event
  | none => []
  | some s => s.events

/--
`query_db(sql, params)` from the source: `[]` when the store file does not
exist (`get_db` returned `None`), the query's rows on success, and `[]`
with the error only printed when the query raises (`except` branch).
The fixed SQL statement together with its bound parameters is the
function `q`; `.error` models a raised `sqlite3` exception.
-/
def query_db (store : Option Store) (q : Store → Except String (List α)) :
    List α :=
  match store with
  | none => []
  | some s =>
    match q s with
    | .ok rows => rows
    | .error _ => []

/--
`scalar_db(sql, params)` from the source: `0` when the store file does not
exist, `row[0]` when the query returns a first row (`.ok (some v)`),
`0` when it returns no row (`.ok none`), and `0` with the error only
printed when the query raises.
-/
def scalar_db (store : Option Store) (q : Store → Except String (Option Int)) :
    Int :=
  match store with
  | none => 0
  | some s =>
    match q s with
    | .ok (some v) => v
    | .ok none => 0
    | .error _ => 0

/-- Insertion of a row into a list sorted descending by a string key. -/
def insertByKeyDesc (key : α → String) (a : α) : List α → List α
  | [] => [a]
  | b :: bs => if key b ≤ key a then a :: b :: bs else b :: insertByKeyDesc key a bs

/-- Denotation of SQL `ORDER BY key DESC` (stable descending sort). -/
def sortByKeyDesc (key : α → String) : List α → List α
  | [] => []
  | a :: as => insertByKeyDesc key a (sortByKeyDesc key as)

/-- Denotation of SQL `LIMIT n` in SQLite: a negative limit means
"no limit", a non-negative one keeps the first `n` rows. -/
def sqlLimit (n : Int) (l : List α) : List α :=
  if n < 0 then l else l.take n.toNat

/-- Denotation of `SELECT COUNT(*) FROM threads` (a COUNT query always
produces exactly one row). -/
def qCountThreads (s : Store) : Except String (Option Int) :=
  .ok (some (s.threads.length : Int))

/-- Denotation of `SELECT COUNT(*) FROM threads WHERE status = 'running'`. -/
def qCountRunning (s : Store) : Except String (Option Int) :=
  .ok (some ((s.threads.filter (fun t => t.status = "running")).length : Int))

/-- Denotation of `SELECT COUNT(*) FROM threads WHERE status = 'ready'`. -/
def qCountReady (s : Store) : Except String (Option Int) :=
  .ok (some ((s.threads.filter (fun t => t.status = "ready")).length : Int))

/-- Denotation of `SELECT COUNT(*) FROM events WHERE processed = 0`. -/
def qCountEventsPending (s : Store) : Except String (Option Int) :=
  .ok (some ((s.events.filter (fun e => e.processed = 0)).length : Int))

/-- Denotation of the `api_threads` SELECT:
`SELECT ... FROM threads ORDER BY updated_at DESC LIMIT 100`. -/
def qThreadsLatest (s : Store) : Except String (List Thread) :=
  .ok (sqlLimit 100 (sortByKeyDesc (fun t => t.updated_at) s.threads))

/-- Denotation of `SELECT * FROM threads WHERE id = ?` with `?` bound to
`tid` (parameter binding, no interpolation). -/
def qThreadById (tid : String) (s : Store) : Except String (List Thread) :=
  .ok (s.threads.filter (fun t => t.id = tid))

/-- Denotation of the `api_events` SELECT:
`SELECT ... FROM events ORDER BY timestamp DESC LIMIT ?` with `?` bound
to `n`. -/
def qEventsLatest (n : Int) (s : Store) : Except String (List Event) :=
  .ok (sqlLimit n (sortByKeyDesc (fun e => e.timestamp) s.events))

/-- A row of the `api_worktrees` LEFT JOIN result: the thread columns are
`NULL` (`none`) when no thread owns the worktree. -/
structure WorktreeRow where
  id : Int
  thread_id : String
  path : String
  branch : String
  base_branch : String
  status : String
  thread_name : Option String
  thread_status : Option String
deriving Repr, DecidableEq

/-- Denotation of the `api_worktrees` SELECT: worktrees LEFT JOINed with
their owning thread, ordered by `w.created_at DESC`. -/
def qWorktrees (s : Store) : Except String (List WorktreeRow) :=
  .ok ((sortByKeyDesc (fun w => w.created_at) s.worktrees).map (fun w =>
    match s.threads.find? (fun t => t.id = w.thread_id) with
    | some t =>
      { id := w.id, thread_id := w.thread_id, path := w.path,
        branch := w.branch, base_branch := w.base_branch, status := w.status,
        thread_name := some t.name, thread_status := some t.status }
    | none =>
      { id := w.id, thread_id := w.thread_id, path := w.path,
        branch := w.branch, base_branch := w.base_branch, status := w.status,
        thread_name := none, thread_status := none }))

/-- The environment a request is served against: the optional store, the
filesystem (path relative to the data directory, to `readlines()` lines),
the liveness probe, and the current UTC timestamp string. -/
structure ServerEnv where
  store : Option Store
  fs : String → Option (List String)
  alive : Int → Bool
  now : String

/-- The `threads` object inside the `/api/status` response. -/
structure StatusThreads where
  total : Int
  running : Int
  ready : Int
deriving Repr, DecidableEq

/-- The `/api/status` JSON response body. -/
structure StatusResponse where
  threads : StatusThreads
  events_pending : Int
  orchestrator_running : Bool
  api_running : Bool
  timestamp : String
deriving Repr, DecidableEq

/-- The `/api/thread/{id}` response body: either the thread's full row or
the in-band error object `{"error": msg}`. -/
inductive ThreadDetail where
  | row (t : Thread)
  | errorObj (msg : String)
deriving Repr, DecidableEq

/-- The `/api/thread/{id}/logs` JSON response body (`content` is the tail
as a list of lines whose concatenation is the returned text). -/
structure ThreadLogsResponse where
  thread_id : String
  lines : Int
  content : List String
deriving Repr, DecidableEq

/-- The `/api/logs` JSON response body. -/
structure LogsResponse where
  file : String
  lines : Int
  content : List String
deriving Repr, DecidableEq

/-- `api_status` from the source: four fixed COUNT queries via
`scalar_db`, two PID-file liveness probes, and the current timestamp. -/
def api_status (env : ServerEnv) : StatusResponse :=
  { threads :=
      { total := scalar_db env.store qCountThreads
        running := scalar_db env.store qCountRunning
        ready := scalar_db env.store qCountReady }
    events_pending := scalar_db env.store qCountEventsPending
    orchestrator_running :=
      is_pid_running (env.fs "orchestrator.pid" |>.map (String.join ·)) env.alive
    api_running :=
      is_pid_running (env.fs "api-server.pid" |>.map (String.join ·)) env.alive
    timestamp := env.now }

/-- `api_threads` from the source. -/
def api_threads (store : Option Store) : List Thread :=
  query_db store qThreadsLatest

/-- `api_thread_detail` from the source: `rows[0] if rows else
{'error': 'Thread not found'}`. -/
def api_thread_detail (store : Option Store) (thread_id : String) : ThreadDetail :=
  match query_db store (qThreadById thread_id) with
  | [] => .errorObj "Thread not found"
  | t :: _ => .row t

/-- `api_thread_logs` from the source: tails
`logs/thread-{thread_id}.log` with the requested line count clamped by
`min(lines, 500)`, but echoes the raw `lines` value in the body. -/
def api_thread_logs (fs : String → Option (List String)) (thread_id : String)
    (lines : Int) : ThreadLogsResponse :=
  let log_file := "logs/thread-" ++ thread_id ++ ".log"
  { thread_id := thread_id
    lines := lines
    content := read_log_file (fs log_file) (min lines 500) }

/-- `api_events` from the source: latest events with the bound LIMIT
parameter clamped by `min(limit, 500)`. -/
def api_events (store : Option Store) (limit : Int) : List Event :=
  query_db store (qEventsLatest (min limit 500))

/-- `api_worktrees` from the source. -/
def api_worktrees (store : Option Store) : List WorktreeRow :=
  query_db store qWorktrees

/-- `api_logs` from the source: tails `logs/orchestrator.log` with the
requested line count clamped by `min(lines, 1000)`, but echoes the raw
`lines` value in the body. -/
def api_logs (fs : String → Option (List String)) (lines : Int) : LogsResponse :=
  { file := "orchestrator.log"
    lines := lines
    content := read_log_file (fs "logs/orchestrator.log") (min lines 1000) }

/-- A JSON body produced by one of the API handlers. -/
inductive ApiBody where
  | statusR (r : StatusResponse)
  | threadsR (r : List Thread)
  | threadDetailR (r : ThreadDetail)
  | threadLogsR (r : ThreadLogsResponse)
  | eventsR (r : List Event)
  | worktreesR (r : List WorktreeRow)
  | logsR (r : LogsResponse)
deriving Repr, DecidableEq

/-- A response body: the static HTML document, a JSON body, or the
standard error page emitted by `send_error`. -/
inductive HttpBody where
  | html (doc : String)
  | json (b : ApiBody)
  | errorPage
deriving Repr, DecidableEq

/-- An HTTP response as written back to the client. -/
structure HttpOut where
  status : Nat
  body : HttpBody
deriving Repr, DecidableEq

/-- `send_json` from the source: always status 200 with a JSON body. -/
def send_json (b : ApiBody) : HttpOut :=
  { status := 200, body := .json b }

/-- `send_html` from the source: status 200 with an HTML body. -/
def send_html (doc : String) : HttpOut :=
  { status := 200, body := .html doc }

/-- `self.send_error(404)`. -/
def send_error404 : HttpOut :=
  { status := 404, body := .errorPage }

/-- The static dashboard document (its content is immaterial to the
verified properties; only that `/` serves HTML with status 200 is used). -/
def DASHBOARD_HTML : String :=
  "<!DOCTYPE html><html lang=\"en\">...</html>"

/-- `int(query.get(key, [dflt])[0])` from `do_GET`: the query string is
the `parse_qs` result restricted to first values (an association list);
a present value that `int()` cannot parse raises `ValueError`, modelled
as `.error`. -/
def queryGetInt (q : List (String × String)) (key : String) (dflt : Int) :
    Except String Int :=
  match q.lookup key with
  | none => .ok dflt
  | some s =>
    match pyInt s with
    | some v => .ok v
    | none => .error ("invalid literal for int() with base 10: " ++ s)

/--
`do_GET` from the source: the closed route table, matched in source
order. The result is `.error e` when an exception (the uncaught
`ValueError` from `int(...)` on a malformed `lines`/`limit` parameter)
escapes the handler — in that case no response is written; otherwise
`.ok` carries the single response written back.
-/
def do_GET (env : ServerEnv) (path : String) (q : List (String × String)) :
    Except String HttpOut :=
  if path = "/" || path = "/index.html" then
    .ok (send_html DASHBOARD_HTML)
  else if path = "/api/status" then
    .ok (send_json (.statusR (api_status env)))
  else if path = "/api/threads" then
    .ok (send_json (.threadsR (api_threads env.store)))
  else if pyStartsWith path "/api/thread/" && pyEndsWith path "/logs" then
    let thread_id := pyReplace (pyReplace path "/api/thread/" "") "/logs" ""
    match queryGetInt q "lines" 50 with
    | .error e => .error e
    | .ok lines => .ok (send_json (.threadLogsR (api_thread_logs env.fs thread_id lines)))
  else if pyStartsWith path "/api/thread/" then
    let thread_id := pyReplace path "/api/thread/" ""
    .ok (send_json (.threadDetailR (api_thread_detail env.store thread_id)))
  else if path = "/api/events" then
    match queryGetInt q "limit" 50 with
    | .error e => .error e
    | .ok limit => .ok (send_json (.eventsR (api_events env.store limit)))
  else if path = "/api/worktrees" then
    .ok (send_json (.worktreesR (api_worktrees env.store)))
  else if path = "/api/logs" then
    match queryGetInt q "lines" 100 with
    | .error e => .error e
    | .ok lines => .ok (send_json (.logsR (api_logs env.fs lines)))
  else
    .ok send_error404

/-- The route table of `do_GET` as a predicate on paths: a path matches
iff it is handled by one of the branches before the final `send_error(404)`. -/
def matchesRoute (path : String) : Bool :=
  path = "/" || path = "/index.html" || path = "/api/status" ||
  path = "/api/threads" ||
  (pyStartsWith path "/api/thread/" && pyEndsWith path "/logs") ||
  pyStartsWith path "/api/thread/" || path = "/api/events" ||
  path = "/api/worktrees" || path = "/api/logs"

/-- A server environment with no store, no files and no live processes. -/
def emptyEnv : ServerEnv :=
  { store := none, fs := fun _ => none, alive := fun _ => false, now := "t0" }

/-- A ten-line log file, as `readlines()` would present it. -/
def file10 : List String :=
  ["l1\n", "l2\n", "l3\n", "l4\n", "l5\n", "l6\n", "l7\n", "l8\n", "l9\n", "l10\n"]

/-- A thread row with the given id and status (other columns empty). -/
def mkThread (i st : String) : Thread :=
  { id := i, name := "", mode := "", status := st, phase := "", template := ""
    session_id := "", worktree := "", context := "", created_at := ""
    updated_at := "" }

/-- The fixture of the spec: 5 threads of which 2 running, 1 ready. -/
def fixtureStore : Store :=
  { threads :=
      [mkThread "t1" "running", mkThread "t2" "running", mkThread "t3" "ready",
       mkThread "t4" "completed", mkThread "t5" "created"]
    events :=
      [{ id := 1, type := "msg", source := "a", target := "b", data := ""
         processed := 0, timestamp := "2024-01-01 00:00:01" },
       { id := 2, type := "msg", source := "a", target := "b", data := ""
         processed := 1, timestamp := "2024-01-01 00:00:02" }]
    worktrees := [] }

/-- The fixture environment serving `fixtureStore`. -/
def fixtureEnv : ServerEnv :=
  { store := some fixtureStore, fs := fun _ => none, alive := fun _ => false
    now := "2024-01-01T00:00:00Z" }

lemma drop_min_length (xs : List α) (k : Nat) :
    xs.drop (min k xs.length) = xs.drop k := by
  rcases Nat.le_total k xs.length with h | h
  · rw [Nat.min_eq_left h]
  · rw [Nat.min_eq_right h]
    have h1 : xs.drop xs.length = [] := by simp
    have h2 : xs.drop k = [] := by
      apply List.drop_eq_nil_of_le h
    rw [h1, h2]

lemma pyTailSlice_zero (xs : List α) : pyTailSlice xs 0 = xs := by
  simp [pyTailSlice, pySliceStart]

lemma pyTailSlice_pos (xs : List α) (n : Int) (h : 0 < n) :
    pyTailSlice xs n = xs.drop (xs.length - n.toNat) := by
  unfold pyTailSlice pySliceStart
  rw [if_pos (by omega)]
  congr 1
  omega

lemma pyTailSlice_neg (xs : List α) (k : Nat) :
    pyTailSlice xs (-(k : Int)) = xs.drop k := by
  unfold pyTailSlice pySliceStart
  rw [if_neg (by omega)]
  have h : ((-(-(k : Int))).toNat) = k := by omega
  rw [h]
  exact drop_min_length xs k

lemma pyTailSlice_pos_length (xs : List α) (n : Int) (h : 0 < n) :
    (pyTailSlice xs n).length = min n.toNat xs.length := by
  rw [pyTailSlice_pos xs n h, List.length_drop]
  omega

lemma read_log_file_length_le (file : Option (List String)) (n : Int)
    (h : 0 < n) : (read_log_file file n).length ≤ n.toNat := by
  cases file with
  | none => simp [read_log_file]
  | some xs =>
    unfold read_log_file
    rw [pyTailSlice_pos_length xs n h]
    omega

lemma api_logs_999999_content_le (fs : String → Option (List String)) :
    ((api_logs fs 999999).content).length ≤ 1000 := by
  have h : (min (999999 : Int) 1000) = 1000 := by norm_num
  unfold api_logs
  simp only [h]
  exact read_log_file_length_le _ 1000 (by norm_num)

/-- C1: For every GET to `/api/logs`, `/api/thread/{id}/logs` or
`/api/events`, the effective lines/limit value used by the handler is
`min(requested, ceiling)` and never exceeds the documented ceiling (1000
for `/api/logs`, 500 for the other two); in particular `lines=999999` on
`/api/logs` yields at most 1000 lines of content. -/
theorem effective_line_limits_clamped :
    (∀ (fs : String → Option (List String)) (tid : String) (n : Int),
       (api_thread_logs fs tid n).content =
         read_log_file (fs ("logs/thread-" ++ tid ++ ".log")) (min n 500) ∧
       min n 500 ≤ 500) ∧
    (∀ (store : Option Store) (n : Int),
       api_events store n = query_db store (qEventsLatest (min n 500)) ∧
       min n 500 ≤ 500) ∧
    (∀ (fs : String → Option (List String)) (n : Int),
       (api_logs fs n).content =
         read_log_file (fs "logs/orchestrator.log") (min n 1000) ∧
       min n 1000 ≤ 1000) ∧
    (∀ fs : String → Option (List String),
       ((api_logs fs 999999).content).length ≤ 1000) := by
  refine ⟨fun fs tid n => ⟨rfl, min_le_right n 500⟩,
          fun store n => ⟨rfl, min_le_right n 500⟩,
          fun fs n => ⟨rfl, min_le_right n 1000⟩,
          fun fs => api_logs_999999_content_le fs⟩

/-- C2: `query_db` and `scalar_db` never raise to the caller: when the
store file does not exist they return `[]` and `0`, and when the query
itself raises they also return `[]` and `0` (the error only printed). -/
theorem db_helpers_return_empty_on_failure :
    (∀ (α : Type) (q : Store → Except String (List α)), query_db none q = []) ∧
    (∀ q : Store → Except String (Option Int), scalar_db none q = 0) ∧
    (∀ (α : Type) (s : Store) (q : Store → Except String (List α)) (e : String),
       q s = .error e → query_db (some s) q = []) ∧
    (∀ (s : Store) (q : Store → Except String (Option Int)) (e : String),
       q s = .error e → scalar_db (some s) q = 0) := by
  refine ⟨fun α q => rfl, fun q => rfl, ?_, ?_⟩
  · intro α s q e h
    simp [query_db, h]
  · intro s q e h
    simp [scalar_db, h]

theorem db_helpers_return_empty_on_failure_witness :
    query_db none (fun _ : Store => (.error "boom" : Except String (List Thread))) = [] ∧
    scalar_db none (fun _ : Store => (.error "boom" : Except String (Option Int))) = 0 ∧
    query_db (some fixtureStore)
      (fun _ : Store => (.error "boom" : Except String (List Thread))) = [] ∧
    scalar_db (some fixtureStore)
      (fun _ : Store => (.error "boom" : Except String (Option Int))) = 0 := by
  refine ⟨db_helpers_return_empty_on_failure.1 Thread _,
          db_helpers_return_empty_on_failure.2.1 _,
          db_helpers_return_empty_on_failure.2.2.1 Thread fixtureStore _ "boom" rfl,
          db_helpers_return_empty_on_failure.2.2.2 fixtureStore _ "boom" rfl⟩

/-- C7: `/api/status` reports `threads.total`, `threads.running`,
`threads.ready` equal to the number of thread rows matching each filter
and `events_pending` equal to the number of events with `processed = 0`;
on the 5-thread fixture (2 running, 1 ready) it yields
`{"total": 5, "running": 2, "ready": 1}`. -/
theorem api_status_counts_correct :
    (∀ env : ServerEnv,
       (api_status env).threads.total = ((threadRows env.store).length : Int) ∧
       (api_status env).threads.running =
         (((threadRows env.store).filter (fun t => t.status = "running")).length : Int) ∧
       (api_status env).threads.ready =
         (((threadRows env.store).filter (fun t => t.status = "ready")).length : Int) ∧
       (api_status env).events_pending =
         (((eventRows env.store).filter (fun e => e.processed = 0)).length : Int)) ∧
    (api_status fixtureEnv).threads = { total := 5, running := 2, ready := 1 } := by
  constructor
  · intro env
    cases h : env.store with
    | none =>
      simp [api_status, scalar_db, threadRows, eventRows, h]
    | some s =>
      simp [api_status, scalar_db, threadRows, eventRows, h,
            qCountThreads, qCountRunning, qCountReady, qCountEventsPending]
  · rfl

/-- C8: `is_pid_running` returns a boolean and never raises: it is `true`
exactly when the PID file is readable, its stripped content parses as an
integer, and that process is alive and probeable; every failure yields
`false`. -/
theorem is_pid_running_spec :
    ∀ (content : Option String) (alive : Int → Bool),
      (is_pid_running content alive = true ↔
        ∃ s pid, content = some s ∧ pyInt (pyStrip s) = some pid ∧
          alive pid = true) ∧
      is_pid_running none alive = false ∧
      (∀ s, pyInt (pyStrip s) = none → is_pid_running (some s) alive = false) ∧
      (∀ s pid, pyInt (pyStrip s) = some pid → alive pid = false →
        is_pid_running (some s) alive = false) := by
  intro content alive
  refine ⟨?_, rfl, ?_, ?_⟩
  · constructor
    · intro h
      cases content with
      | none => simp [is_pid_running] at h
      | some s =>
        cases hp : pyInt (pyStrip s) with
        | none => simp [is_pid_running, hp] at h
        | some pid =>
          refine ⟨s, pid, rfl, hp, ?_⟩
          simpa [is_pid_running, hp] using h
    · rintro ⟨s, pid, rfl, hp, ha⟩
      simp [is_pid_running, hp, ha]
  · intro s hp
    simp [is_pid_running, hp]
  · intro s pid hp ha
    simp [is_pid_running, hp, ha]

theorem is_pid_running_spec_witness :
    is_pid_running (some "not-a-pid") (fun _ => true) = false ∧
    is_pid_running (some "99999") (fun _ => false) = false := by
  refine ⟨(is_pid_running_spec (some "not-a-pid") (fun _ => true)).2.2.1
            "not-a-pid" rfl,
          (is_pid_running_spec (some "99999") (fun _ => false)).2.2.2
            "99999" 99999 rfl rfl⟩

/-- C10: the `lines` field of the `/api/logs` and `/api/thread/{id}/logs`
response bodies echoes the raw requested value, not the clamped one:
`lines=999999` produces a body whose `lines` field is 999999 even though
its content is capped at the ceiling. -/
theorem lines_field_echoes_raw_request :
    ∀ (fs : String → Option (List String)) (tid : String) (n : Int),
      (api_thread_logs fs tid n).lines = n ∧
      (api_logs fs n).lines = n ∧
      (api_logs fs 999999).lines = 999999 ∧
      ((api_logs fs 999999).content).length ≤ 1000 := by
  intro fs tid n
  exact ⟨rfl, rfl, rfl, api_logs_999999_content_le fs⟩

lemma api_thread_detail_eq_error (store : Option Store) (tid : String)
    (h : (threadRows store).filter (fun t => t.id = tid) = []) :
    api_thread_detail store tid = .errorObj "Thread not found" := by
  cases store with
  | none => rfl
  | some s =>
    simp only [threadRows] at h
    unfold api_thread_detail query_db qThreadById
    simp [h]

/-- C3: a thread id with no row in the `threads` table is answered with
HTTP status 200 and the in-band body `{"error": "Thread not found"}`,
not an HTTP error status; in particular `GET /api/thread/does-not-exist`
does so whenever that id has no row. -/
theorem thread_not_found_returns_200_error_body :
    (∀ (store : Option Store) (tid : String),
       (threadRows store).filter (fun t => t.id = tid) = [] →
       api_thread_detail store tid = .errorObj "Thread not found" ∧
       send_json (.threadDetailR (api_thread_detail store tid)) =
         { status := 200
           body := .json (.threadDetailR (.errorObj "Thread not found")) }) ∧
    (∀ env : ServerEnv,
       (threadRows env.store).filter (fun t => t.id = "does-not-exist") = [] →
       do_GET env "/api/thread/does-not-exist" [] =
         .ok { status := 200
               body := .json (.threadDetailR (.errorObj "Thread not found")) }) := by
  constructor
  · intro store tid h
    have hd := api_thread_detail_eq_error store tid h
    exact ⟨hd, by rw [hd]; rfl⟩
  · intro env h
    have hd := api_thread_detail_eq_error env.store "does-not-exist" h
    show Except.ok (send_json (ApiBody.threadDetailR
        (api_thread_detail env.store "does-not-exist"))) =
      Except.ok { status := 200
                  body := HttpBody.json (ApiBody.threadDetailR
                    (ThreadDetail.errorObj "Thread not found")) }
    rw [hd]
    rfl

theorem thread_not_found_returns_200_error_body_witness :
    api_thread_detail none "nope" = .errorObj "Thread not found" ∧
    do_GET emptyEnv "/api/thread/does-not-exist" [] =
      .ok { status := 200
            body := .json (.threadDetailR (.errorObj "Thread not found")) } := by
  exact ⟨(thread_not_found_returns_200_error_body.1 none "nope" rfl).1,
         thread_not_found_returns_200_error_body.2 emptyEnv rfl⟩

/-- C4 counterexample: tailing a readable 10-line file with
`maxLines = 0` returns the *whole* file (10 lines), so the result is not
"exactly the last 0 lines" and contains more than `maxLines` lines. -/
theorem read_log_file_zero_counterexample :
    read_log_file (some file10) 0 = file10 ∧ file10.length = 10 ∧
    ¬ ((read_log_file (some file10) 0).length ≤ 0) := by
  have h : read_log_file (some file10) 0 = file10 := pyTailSlice_zero file10
  refine ⟨h, rfl, ?_⟩
  rw [h]
  decide

/-- C4 amended: for every readable file and every `maxLines ≥ 1`, the
log-tail operation returns exactly the last `min maxLines total` lines of
the file in original order (a suffix, never more than `maxLines` lines),
and returns empty text when the file is unreadable. -/
theorem read_log_file_tail_amended (xs : List String) (n : Int) (h : 1 ≤ n) :
    read_log_file (some xs) n = xs.drop (xs.length - n.toNat) ∧
    (read_log_file (some xs) n).length = min n.toNat xs.length ∧
    (read_log_file (some xs) n).length ≤ n.toNat ∧
    read_log_file (some xs) n <:+ xs ∧
    read_log_file none n = [] := by
  have h0 : (0 : Int) < n := by omega
  have e : read_log_file (some xs) n = xs.drop (xs.length - n.toNat) :=
    pyTailSlice_pos xs n h0
  refine ⟨e, ?_, read_log_file_length_le (some xs) n h0, ?_, rfl⟩
  · exact pyTailSlice_pos_length xs n h0
  · rw [e]
    exact List.drop_suffix _ _

theorem read_log_file_tail_amended_witness :
    (1 : Int) ≤ 3 ∧
    read_log_file (some file10) 3 = file10.drop (file10.length - (3 : Int).toNat) ∧
    file10.drop (file10.length - (3 : Int).toNat) = ["l8\n", "l9\n", "l10\n"] := by
  refine ⟨by norm_num, (read_log_file_tail_amended file10 3 (by norm_num)).1, ?_⟩
  decide

/-- C6 counterexample: with `CT_DATA_DIR` set to the empty string, no
local convention directory, and an existing home convention directory,
the resolver does not return the override — the truthiness test skips an
empty override. -/
theorem empty_override_counterexample :
    find_data_dir (some "") false true "/home/user" = "/home/user/.claude-threads" ∧
    find_data_dir (some "") false true "/home/user" ≠ "" := by
  exact ⟨rfl, by decide⟩

/-- C6 amended: the resolver returns the override directory if the
override variable is set *to a non-empty string*; otherwise the local
convention directory if it exists; otherwise the home convention
directory if it exists; otherwise the local convention path regardless
of existence. -/
theorem find_data_dir_precedence_amended (env : Option String)
    (localE homeE : Bool) (homeDir : String) :
    (∀ v, env = some v → v ≠ "" → find_data_dir env localE homeE homeDir = v) ∧
    (pyTruthyStr env = false → localE = true →
       find_data_dir env localE homeE homeDir = ".claude-threads") ∧
    (pyTruthyStr env = false → localE = false → homeE = true →
       find_data_dir env localE homeE homeDir = homeDir ++ "/.claude-threads") ∧
    (pyTruthyStr env = false → localE = false → homeE = false →
       find_data_dir env localE homeE homeDir = ".claude-threads") := by
  refine ⟨?_, ?_, ?_, ?_⟩
  · rintro v rfl hv
    have ht : pyTruthyStr (some v) = true := by simp [pyTruthyStr, hv]
    simp [find_data_dir, ht]
  · intro hf hl
    simp [find_data_dir, hf, hl]
  · intro hf hl hh
    simp [find_data_dir, hf, hl, hh]
  · intro hf hl hh
    simp [find_data_dir, hf, hl, hh]

theorem find_data_dir_precedence_amended_witness :
    find_data_dir (some "/data") false false "/home/user" = "/data" ∧
    find_data_dir none true true "/home/user" = ".claude-threads" ∧
    find_data_dir none false true "/home/user" = "/home/user/.claude-threads" ∧
    find_data_dir none false false "/home/user" = ".claude-threads" := by
  refine ⟨(find_data_dir_precedence_amended (some "/data") false false
             "/home/user").1 "/data" rfl (by decide),
          (find_data_dir_precedence_amended none true true "/home/user").2.1
            rfl rfl,
          (find_data_dir_precedence_amended none false true "/home/user").2.2.1
            rfl rfl rfl,
          (find_data_dir_precedence_amended none false false "/home/user").2.2.2
            rfl rfl rfl⟩

/-- C9: the server-side clamp bounds only from above: on a readable log
file, `lines=0` returns the entire file content and `lines=-k` returns
all lines except the first `k`, because the tail is the Python slice
`all_lines[-lines:]` taken after `min(lines, ceiling)`. -/
theorem clamp_bounds_only_above (fs : String → Option (List String))
    (tid : String) (xs : List String) :
    (fs ("logs/thread-" ++ tid ++ ".log") = some xs →
       (api_thread_logs fs tid 0).content = xs) ∧
    (fs "logs/orchestrator.log" = some xs →
       (api_logs fs 0).content = xs) ∧
    (∀ k : Nat, fs "logs/orchestrator.log" = some xs →
       (api_logs fs (-(k : Int))).content = xs.drop k) ∧
    (∀ k : Nat, fs ("logs/thread-" ++ tid ++ ".log") = some xs →
       (api_thread_logs fs tid (-(k : Int))).content = xs.drop k) := by
  have hm0a : (min (0 : Int) 500) = 0 := by norm_num
  have hm0b : (min (0 : Int) 1000) = 0 := by norm_num
  refine ⟨?_, ?_, ?_, ?_⟩
  · intro h
    show read_log_file (fs ("logs/thread-" ++ tid ++ ".log")) (min 0 500) = xs
    rw [h, hm0a]
    exact pyTailSlice_zero xs
  · intro h
    show read_log_file (fs "logs/orchestrator.log") (min 0 1000) = xs
    rw [h, hm0b]
    exact pyTailSlice_zero xs
  · intro k h
    have hm : (min (-(k : Int)) 1000) = -(k : Int) := min_eq_left (by omega)
    show read_log_file (fs "logs/orchestrator.log") (min (-(k : Int)) 1000) =
      xs.drop k
    rw [h, hm]
    exact pyTailSlice_neg xs k
  · intro k h
    have hm : (min (-(k : Int)) 500) = -(k : Int) := min_eq_left (by omega)
    show read_log_file (fs ("logs/thread-" ++ tid ++ ".log"))
      (min (-(k : Int)) 500) = xs.drop k
    rw [h, hm]
    exact pyTailSlice_neg xs k

/-- A filesystem whose every path holds the ten-line fixture file. -/
def constFs : String → Option (List String) := fun _ => some file10

theorem clamp_bounds_only_above_witness :
    (api_logs constFs 0).content = file10 ∧
    (api_logs constFs (-((3 : Nat) : Int))).content = file10.drop 3 := by
  exact ⟨(clamp_bounds_only_above constFs "t1" file10).2.1 rfl,
         (clamp_bounds_only_above constFs "t1" file10).2.2.1 3 rfl⟩

/-- C5 counterexample: `/api/logs` is in the closed route table, yet a
request to it with the non-numeric query value `lines=abc` does not
complete with HTTP 200: the uncaught `ValueError` from `int(...)`
escapes `do_GET` and no response is produced. -/
theorem non_numeric_param_raises_counterexample :
    matchesRoute "/api/logs" = true ∧
    do_GET emptyEnv "/api/logs" [("lines", "abc")] =
      .error "invalid literal for int() with base 10: abc" ∧
    (do_GET emptyEnv "/api/logs" [("lines", "abc")]).isOk = false := by
  exact ⟨rfl, rfl, rfl⟩

lemma queryGetInt_ok (q : List (String × String)) (k : String) (d : Int)
    (h : ∀ s, q.lookup k = some s → (pyInt s).isSome = true) :
    ∃ v, queryGetInt q k d = .ok v := by
  cases hl : q.lookup k with
  | none => exact ⟨d, by simp [queryGetInt, hl]⟩
  | some s =>
    cases hp : pyInt s with
    | none =>
      have hs := h s hl
      rw [hp] at hs
      simp [Option.isSome] at hs
    | some v =>
      exact ⟨v, by simp [queryGetInt, hl, hp]⟩

/-- C5 amended: for every GET whose path matches a route in the closed
route table, *provided every supplied `lines`/`limit` query value parses
as a Python integer*, the handler completes with an HTTP 200 response
(DB failures still degrade to empty/zero results); a non-numeric
`lines`/`limit` value instead raises an uncaught `ValueError` out of the
handler, so no response is sent. -/
theorem matched_route_parseable_params_200 (env : ServerEnv) (path : String)
    (q : List (String × String)) (hm : matchesRoute path = true)
    (hl : ∀ s, q.lookup "lines" = some s → (pyInt s).isSome = true)
    (hlim : ∀ s, q.lookup "limit" = some s → (pyInt s).isSome = true) :
    ∃ out : HttpOut, do_GET env path q = .ok out ∧ out.status = 200 := by
  obtain ⟨v1, hv1⟩ := queryGetInt_ok q "lines" 50 hl
  obtain ⟨v2, hv2⟩ := queryGetInt_ok q "limit" 50 hlim
  obtain ⟨v3, hv3⟩ := queryGetInt_ok q "lines" 100 hl
  unfold do_GET
  rw [hv1, hv2, hv3]
  split_ifs with h1 h2 h3 h4 h5 h6 h7 h8
  · exact ⟨_, rfl, rfl⟩
  · exact ⟨_, rfl, rfl⟩
  · exact ⟨_, rfl, rfl⟩
  · exact ⟨_, rfl, rfl⟩
  · exact ⟨_, rfl, rfl⟩
  · exact ⟨_, rfl, rfl⟩
  · exact ⟨_, rfl, rfl⟩
  · exact ⟨_, rfl, rfl⟩
  · exfalso
    unfold matchesRoute at hm
    simp only [Bool.or_eq_true, Bool.and_eq_true, decide_eq_true_eq]
      at hm h1 h2 h3 h4 h5 h6 h7 h8
    tauto

theorem matched_route_parseable_params_200_witness :
    ∃ out : HttpOut, do_GET emptyEnv "/api/logs" [("lines", "200")] = .ok out ∧
      out.status = 200 := by
  refine matched_route_parseable_params_200 emptyEnv "/api/logs"
    [("lines", "200")] rfl ?_ ?_
  · intro s hs
    have h2 : some "200" = some s := hs
    rw [← Option.some.inj h2]
    rfl
  · intro s hs
    exact Option.noConfusion hs
